import Mathlib

/-!
Shallow embedding of `src/node-client/client.js` (Express + Passport + Auth0
client). JavaScript runtime values are modelled by `JSValue`; expressions that
can throw (property access on `undefined`/`null`) return `Except String`.
Handlers are pure functions from the request-relevant state (session user,
environment, outcome of the single outbound fetch) to the response they send
and the list of outbound requests they issue.
-/

namespace NodeClient

/-- JavaScript runtime values, as far as `client.js` needs them. -/
inductive JSValue : Type where
  | undefined : JSValue
  | null : JSValue
  | bool : Bool → JSValue
  | num : Int → JSValue
  | str : String → JSValue
  | obj : List (String × JSValue) → JSValue
deriving Repr

/-- JavaScript truthiness (`Boolean(v)`), restricted to the values modelled. -/
def jsTruthy : JSValue → Bool
  | .undefined => false
  | .null => false
  | .bool b => b
  | .num n => n != 0
  | .str s => s != ""
  | .obj _ => true

/-- Own/inherited properties of a string primitive that matter here: a plain
string has `length` but no `searchParams` member (only `URL` objects do). -/
def stringProp (s : String) (name : String) : JSValue :=
  if name = "length" then .num s.length else .undefined

/-- Non-throwing property read (receiver known not to be `undefined`/`null`). -/
def objProp (v : JSValue) (name : String) : JSValue :=
  match v with
  | .obj fs => match fs.lookup name with
    | some w => w
    | none => .undefined
  | .str s => stringProp s name
  | _ => .undefined

/-- Property access `v.name` as an expression: throws a `TypeError` when the
receiver is `undefined` or `null`, like the JavaScript runtime. -/
def getPropEx (v : JSValue) (name : String) : Except String JSValue :=
  match v with
  | .undefined => .error ("TypeError: Cannot read properties of undefined (reading \x27" ++ name ++ "\x27)")
  | .null => .error ("TypeError: Cannot read properties of null (reading \x27" ++ name ++ "\x27)")
  | w => .ok (objProp w name)

/-- Short-circuit `v && v.name` (evaluates the property only on a truthy
receiver, so it never throws). -/
def andProp (v : JSValue) (name : String) : JSValue :=
  if jsTruthy v then objProp v name else v

/-- Template-literal stringification `${v}`. -/
def jsToString : JSValue → String
  | .undefined => "undefined"
  | .null => "null"
  | .bool b => if b then "true" else "false"
  | .num n => toString n
  | .str s => s
  | .obj _ => "[object Object]"

/-! ## Environment check (client.js lines 14-26) -/

/-- The six destructured entries of `process.env`; `none` is an unset
variable (`undefined` after destructuring). -/
structure Env : Type where
  AUTH0_DOMAIN : Option String
  AUTH0_CLIENT_ID : Option String
  AUTH0_CLIENT_SECRET : Option String
  AUTH0_CALLBACK_URL : Option String
  API_BASE_URL : Option String
  PORT : Option String
deriving Repr

/-- `!X` on a destructured env var: true when unset or the empty string. -/
def envFalsy : Option String → Bool
  | none => true
  | some s => s == ""

/-- What the module-level startup code does: either `process.exit(1)` after
the `console.error`, or reach `app.listen(PORT, ...)`. -/
inductive StartupResult : Type where
  | exited : Nat → String → StartupResult
  | listening : String → StartupResult
deriving Repr

/-- The guard at client.js line 23 followed by `app.listen(PORT, ...)` at
line 185. -/
def startup (e : Env) : StartupResult :=
  if envFalsy e.AUTH0_DOMAIN || envFalsy e.AUTH0_CLIENT_ID ||
     envFalsy e.AUTH0_CLIENT_SECRET || envFalsy e.AUTH0_CALLBACK_URL ||
     envFalsy e.API_BASE_URL || envFalsy e.PORT then
    .exited 1 "Error: Missing required environment variables. Please check your .env file."
  else
    .listening (e.PORT.getD "")

/-! ## Verify callback (client.js lines 57-67) -/

/-- The object literal built by the Auth0Strategy verify callback and passed
to `done(null, user)`: field names and order as written in the source. -/
def verifyUser (accessToken refreshToken extraParams profile : JSValue) : JSValue :=
  .obj [ ("profile", profile)
       , ("accessToken", accessToken)
       , ("idToken", andProp extraParams "id_token")
       , ("tokenType", andProp extraParams "token_type")
       , ("expiresIn", andProp extraParams "expires_in") ]

/-! ## Session and gate (client.js lines 72-84) -/

/-- `req.user` as Passport exposes it: `undefined` when the session holds no
login, otherwise the deserialized user object. -/
def sessionUser : Option JSValue → JSValue
  | none => .undefined
  | some u => u

/-- Responses the handlers send. `send` carries the HTTP status (200 when
`res.send` is used without `res.status`) and the body string. -/
inductive Response : Type where
  | redirect : String → Response
  | send : Nat → String → Response
deriving Repr

/-- Result of running a middleware: either it called `next()` or it ended the
request with a response. -/
inductive GateResult : Type where
  | allow : GateResult
  | response : Response → GateResult
deriving Repr

/-- `ensureLoggedIn` (client.js lines 79-84). `req.isAuthenticated()` is
Passport's check, truthy exactly when `req.user` is set. -/
def ensureLoggedIn (user : JSValue) : GateResult :=
  if jsTruthy user then .allow else .response (.redirect "/login")

/-- The routes `app.get` registers `ensureLoggedIn` on (lines 139, 153). -/
def protectedRoutes : List String := ["/profile", "/call-api"]

/-! ## Home page (client.js lines 86-98) -/

/-- The template literal sent by `homePage`, with `${loggedIn ? ... : ...}`
interpolated. -/
def homePageBody (loggedIn : Bool) : String :=
  "\n        <h1>Home</h1>\n        <p>Status: " ++
  (if loggedIn then "Logged In" else "Logged Out") ++
  "</p>\n        <ul>\n            <li><a href=\x22/login\x22>Login</a></li>\n            <li><a href=\x22/logout\x22>Logout</a></li>\n            <li><a href=\x22/profile\x22>Profile</a></li>\n            <li><a href=\x22/call-api\x22>Call Sprint Boot /secure-data</a></li>\n        </ul>\n    "

/-- `homePage` (client.js lines 86-98): `res.send` with default status 200. -/
def homePage (user : JSValue) : Response :=
  .send 200 (homePageBody (jsTruthy user))

/-! ## Callback route (client.js lines 116-122) -/

/-- Outcome of `passport.authenticate` on the `/callback` request: success
carries what the provider delivered to the verify callback. -/
inductive AuthOutcome : Type where
  | success : JSValue → JSValue → JSValue → JSValue → AuthOutcome
  | failure : AuthOutcome
deriving Repr

/-- Session user plus the response sent, after the `/callback` route. -/
structure CallbackResult : Type where
  user : Option JSValue
  response : Response
deriving Repr

/-- The `/callback` route: `passport.authenticate` with
`failureRedirect: "/"` logs the verify-callback user into the session on
success and then the route handler redirects to `/profile`; on failure it
redirects to `/` without touching the session. -/
def callbackRoute (sess : Option JSValue) : AuthOutcome → CallbackResult
  | .success accessToken refreshToken extraParams profile =>
      ⟨some (verifyUser accessToken refreshToken extraParams profile), .redirect "/profile"⟩
  | .failure => ⟨sess, .redirect "/"⟩

/-! ## Logout route (client.js lines 125-136) -/

/-- Evaluation of the body of the `req.logout` completion callback
(client.js lines 127-131). `logoutURL` is a plain string, so reading
`searchParams` on it yields `undefined`, and reading `append` on that
`undefined` throws; the trailing `res.redirect(logoutURL.toString())` is
unreachable and stands in for the intended redirect. -/
def logoutCallbackRun (domain clientId port : String) : Except String Response :=
  match getPropEx (.str ("https://" ++ domain ++ "/v2/logout")) "searchParams" with
  | .error e => .error e
  | .ok sp =>
    match getPropEx sp "append" with
    | .error e => .error e
    | .ok _append => .ok (.redirect ("https://" ++ domain ++ "/v2/logout"))

/-- The `/logout` handler: the asynchronous completion callback (which
throws) and the synchronous `res.redirect("/")` at line 135 that actually
answers the request. -/
structure LogoutResult : Type where
  callback : Except String Response
  immediate : Response
deriving Repr

/-- `/logout` (client.js lines 125-136): `req.logout(cb)` schedules `cb`,
then line 135 sends `res.redirect("/")`. -/
def logoutHandler (domain clientId port : String) : LogoutResult :=
  ⟨logoutCallbackRun domain clientId port, .redirect "/"⟩

/-! ## The /call-api handler (client.js lines 153-182) -/

/-- An outbound `fetch` call: URL and the `Authorization` header value. -/
structure FetchRequest : Type where
  url : String
  authorization : String
deriving Repr

/-- What the single awaited `fetch` + `response.text()` produced: a response
(status and body text) or a thrown transport error with its `.message`. -/
inductive FetchOutcome : Type where
  | success : Nat → String → FetchOutcome
  | failure : String → FetchOutcome
deriving Repr

/-- `${API_BASE_URL || \x27http://localhost:8080\x27}/secure-data`
(client.js line 160). -/
def callApiUrl (apiBase : Option String) : String :=
  (match apiBase with
   | some s => if s == "" then "http://localhost:8080" else s
   | none => "http://localhost:8080") ++ "/secure-data"

/-- The success-page template literal (client.js lines 167-172). -/
def callApiSuccessBody (text : String) (status : Nat) : String :=
  "\n            <h2>Spring Boot API Response</h2>\n            <pre>" ++ text ++
  "</pre>\n            <p>Status: " ++ toString status ++
  "</p>\n            <p><a href=\x22/\x22>Home</a></p>\n        "

/-- The error-page template literal (client.js lines 176-180). -/
def callApiErrorBody (message : String) : String :=
  "\n            <h2>Error Calling Protected API</h2>\n            <p>" ++ message ++
  "</p>\n            <p><a href=\x22/\x22>Home</a></p>\n        "

/-- Response sent by `/call-api` together with the outbound requests it
issued, in order. -/
structure CallApiResult : Type where
  requests : List FetchRequest
  response : Response
deriving Repr

/-- The `/call-api` handler body (client.js lines 153-182), after
`ensureLoggedIn` has called `next()`. -/
def callApiHandler (apiBase : Option String) (user : JSValue)
    (outcome : FetchOutcome) : CallApiResult :=
  let accessToken := andProp user "accessToken"
  if !(jsTruthy accessToken) then
    ⟨[], .send 401 "No access token. Please log in again."⟩
  else
    let req : FetchRequest := ⟨callApiUrl apiBase, "Bearer " ++ jsToString accessToken⟩
    match outcome with
    | .success status text => ⟨[req], .send 200 (callApiSuccessBody text status)⟩
    | .failure message => ⟨[req], .send 500 (callApiErrorBody message)⟩

/-! ## Theorems -/

/-- Claim C1: for every request to a protected route, `ensureLoggedIn` calls
the next handler if and only if the session carries a logged-in Identity;
with no identity it responds with a redirect to `/login`, and any response it
ever produces is exactly that redirect. -/
theorem ensureLoggedIn_gate (s : Option JSValue)
    (h : ∀ u, s = some u → ∃ fs, u = JSValue.obj fs) :
    (ensureLoggedIn (sessionUser s) = .allow ↔ s.isSome) ∧
    (s = none → ensureLoggedIn (sessionUser s) = .response (.redirect "/login")) ∧
    (∀ r, ensureLoggedIn (sessionUser s) = .response r → r = .redirect "/login") := by
  cases s with
  | none =>
    refine ⟨?_, fun _ => rfl, ?_⟩
    · simp [sessionUser, ensureLoggedIn, jsTruthy]
    · intro r hr
      simpa [sessionUser, ensureLoggedIn, jsTruthy] using hr.symm
  | some u =>
    obtain ⟨fs, rfl⟩ := h u rfl
    refine ⟨?_, ?_, ?_⟩
    · simp [sessionUser, ensureLoggedIn, jsTruthy]
    · intro hn
      cases hn
    · intro r hr
      simp [sessionUser, ensureLoggedIn, jsTruthy] at hr

/-- Witness for C1 at concrete sessions: the empty session is redirected to
`/login` and a session holding an identity object is allowed through. -/
theorem ensureLoggedIn_gate_witness :
    ensureLoggedIn (sessionUser none) = .response (.redirect "/login") ∧
    ensureLoggedIn (sessionUser (some (.obj [("accessToken", .str "abc")]))) = .allow := by
  constructor
  · exact (ensureLoggedIn_gate none (by intro u hu; cases hu)).2.1 rfl
  · exact ((ensureLoggedIn_gate (some (.obj [("accessToken", .str "abc")]))
      (by intro u hu; exact ⟨[("accessToken", .str "abc")], by cases hu; rfl⟩)).1).mpr rfl

/-- Claim C2: after a successful provider callback delivering
`(accessToken, refreshToken, extraParams, profile)` with `extraParams` an
object, the Identity attached to the session holds exactly the five fields
`profile`, `accessToken`, `idToken`, `tokenType`, `expiresIn`, valued
respectively at the delivered profile, the delivered access token,
`extraParams.id_token`, `extraParams.token_type`, `extraParams.expires_in`,
and no other fields (the delivered refresh token is not stored). -/
theorem callback_identity_fields (sess : Option JSValue)
    (a r e p : JSValue) (fs : List (String × JSValue)) (h : e = .obj fs) :
    (callbackRoute sess (.success a r e p)).user =
      some (.obj [ ("profile", p)
                 , ("accessToken", a)
                 , ("idToken", objProp e "id_token")
                 , ("tokenType", objProp e "token_type")
                 , ("expiresIn", objProp e "expires_in") ]) := by
  subst h
  simp [callbackRoute, verifyUser, andProp, jsTruthy]

/-- Witness for C2 at a concrete callback payload. -/
theorem callback_identity_fields_witness :
    (callbackRoute none (.success (.str "AT") (.str "RT")
        (.obj [ ("id_token", .str "IDT"), ("token_type", .str "Bearer")
              , ("expires_in", .num 86400) ])
        (.obj [("name", .str "alice")]))).user =
      some (.obj [ ("profile", .obj [("name", .str "alice")])
                 , ("accessToken", .str "AT")
                 , ("idToken", .str "IDT")
                 , ("tokenType", .str "Bearer")
                 , ("expiresIn", .num 86400) ]) := by
  have h := callback_identity_fields none (.str "AT") (.str "RT")
      (.obj [ ("id_token", .str "IDT"), ("token_type", .str "Bearer")
            , ("expires_in", .num 86400) ])
      (.obj [("name", .str "alice")])
      [ ("id_token", .str "IDT"), ("token_type", .str "Bearer")
      , ("expires_in", .num 86400) ] rfl
  rw [h]
  rfl

/-- Claim C8: the `/callback` route attaches the Identity built by the verify
callback to the session and redirects to `/profile` on success; on provider
denial or error it redirects to `/` and leaves the session unchanged. -/
theorem callbackRoute_outcomes (sess : Option JSValue) (a r e p : JSValue) :
    callbackRoute sess (.success a r e p) =
      ⟨some (verifyUser a r e p), .redirect "/profile"⟩ ∧
    callbackRoute sess .failure = ⟨sess, .redirect "/"⟩ :=
  ⟨rfl, rfl⟩

/-- Claim C5: the root route responds with status 200, and its body contains
the text "Logged Out" exactly when the session has no Identity and
"Logged In" when it holds one. -/
theorem homePage_status (s : Option JSValue)
    (h : ∀ u, s = some u → ∃ fs, u = JSValue.obj fs) :
    ∃ b, homePage (sessionUser s) = .send 200 b ∧
      (s = none → ∃ x y, b = x ++ "Logged Out" ++ y) ∧
      (s.isSome = true → ∃ x y, b = x ++ "Logged In" ++ y) := by
  cases s with
  | none =>
    refine ⟨homePageBody false, rfl, ?_, ?_⟩
    · intro _
      exact ⟨"\n        <h1>Home</h1>\n        <p>Status: ",
        "</p>\n        <ul>\n            <li><a href=\x22/login\x22>Login</a></li>\n            <li><a href=\x22/logout\x22>Logout</a></li>\n            <li><a href=\x22/profile\x22>Profile</a></li>\n            <li><a href=\x22/call-api\x22>Call Sprint Boot /secure-data</a></li>\n        </ul>\n    ", rfl⟩
    · intro hs
      cases hs
  | some u =>
    obtain ⟨fs, rfl⟩ := h u rfl
    refine ⟨homePageBody true, rfl, ?_, ?_⟩
    · intro hn
      cases hn
    · intro _
      exact ⟨"\n        <h1>Home</h1>\n        <p>Status: ",
        "</p>\n        <ul>\n            <li><a href=\x22/login\x22>Login</a></li>\n            <li><a href=\x22/logout\x22>Logout</a></li>\n            <li><a href=\x22/profile\x22>Profile</a></li>\n            <li><a href=\x22/call-api\x22>Call Sprint Boot /secure-data</a></li>\n        </ul>\n    ", rfl⟩

/-- Witness for C5 at a concrete empty session and a concrete identity. -/
theorem homePage_status_witness :
    (∃ b, homePage (sessionUser none) = .send 200 b ∧
      ((none : Option JSValue) = none → ∃ x y, b = x ++ "Logged Out" ++ y) ∧
      ((none : Option JSValue).isSome = true → ∃ x y, b = x ++ "Logged In" ++ y)) ∧
    (∃ b, homePage (sessionUser (some (.obj [("accessToken", .str "abc")]))) = .send 200 b ∧
      (some (JSValue.obj [("accessToken", .str "abc")]) = none →
        ∃ x y, b = x ++ "Logged Out" ++ y) ∧
      ((some (JSValue.obj [("accessToken", .str "abc")])).isSome = true →
        ∃ x y, b = x ++ "Logged In" ++ y)) := by
  constructor
  · exact homePage_status none (by intro u hu; cases hu)
  · exact homePage_status (some (.obj [("accessToken", .str "abc")]))
      (by intro u hu; exact ⟨[("accessToken", .str "abc")], by cases hu; rfl⟩)

/-- Claim C4: if any of the six required environment variables is unset,
startup prints the descriptive error, exits with the non-zero status 1, and
never reaches `app.listen`. -/
theorem startup_missing_env (e : Env)
    (h : e.AUTH0_DOMAIN = none ∨ e.AUTH0_CLIENT_ID = none ∨
         e.AUTH0_CLIENT_SECRET = none ∨ e.AUTH0_CALLBACK_URL = none ∨
         e.API_BASE_URL = none ∨ e.PORT = none) :
    startup e =
      .exited 1 "Error: Missing required environment variables. Please check your .env file." ∧
    ∀ p, startup e ≠ .listening p := by
  have hc : (envFalsy e.AUTH0_DOMAIN || envFalsy e.AUTH0_CLIENT_ID ||
      envFalsy e.AUTH0_CLIENT_SECRET || envFalsy e.AUTH0_CALLBACK_URL ||
      envFalsy e.API_BASE_URL || envFalsy e.PORT) = true := by
    rcases h with h | h | h | h | h | h <;> simp [h, envFalsy]
  constructor
  · simp [startup, hc]
  · intro p hp
    simp [startup, hc] at hp

/-- Witness for C4: an environment missing only `API_BASE_URL` exits with
status 1 and binds no listener. -/
theorem startup_missing_env_witness :
    startup ⟨some "d.auth0.com", some "cid", some "sec", some "cb", none, some "3000"⟩ =
      .exited 1 "Error: Missing required environment variables. Please check your .env file." ∧
    ∀ p, startup ⟨some "d.auth0.com", some "cid", some "sec", some "cb", none, some "3000"⟩ ≠
      .listening p :=
  startup_missing_env ⟨some "d.auth0.com", some "cid", some "sec", some "cb", none, some "3000"⟩
    (Or.inr (Or.inr (Or.inr (Or.inr (Or.inl rfl)))))

/-- Claim C3: `/call-api` with an access token `t` in the session Identity
issues exactly one outbound request, whose Authorization header is the string
"Bearer " followed by `t`; on a successful downstream response it sends a
200 page containing the downstream body verbatim together with the
downstream status code. -/
theorem callApi_success (apiBase : Option String) (user : JSValue) (t : String)
    (ht : objProp user "accessToken" = .str t) (htt : t ≠ "")
    (hu : jsTruthy user = true) (status : Nat) (text : String) :
    (callApiHandler apiBase user (.success status text)).requests =
      [⟨callApiUrl apiBase, "Bearer " ++ t⟩] ∧
    ∃ x y z, (callApiHandler apiBase user (.success status text)).response =
      .send 200 (x ++ text ++ y ++ toString status ++ z) := by
  have hat : andProp user "accessToken" = .str t := by
    simp [andProp, hu, ht]
  constructor
  · simp [callApiHandler, hat, jsTruthy, jsToString, htt]
  · refine ⟨"\n            <h2>Spring Boot API Response</h2>\n            <pre>",
      "</pre>\n            <p>Status: ",
      "</p>\n            <p><a href=\x22/\x22>Home</a></p>\n        ", ?_⟩
    simp [callApiHandler, hat, jsTruthy, htt, callApiSuccessBody]

/-- Witness for C3 at a concrete token, base URL and downstream response. -/
theorem callApi_success_witness :
    (callApiHandler (some "http://localhost:8080") (.obj [("accessToken", .str "abc")])
        (.success 200 "hello")).requests =
      [⟨callApiUrl (some "http://localhost:8080"), "Bearer " ++ "abc"⟩] ∧
    ∃ x y z, (callApiHandler (some "http://localhost:8080")
        (.obj [("accessToken", .str "abc")]) (.success 200 "hello")).response =
      .send 200 (x ++ "hello" ++ y ++ toString 200 ++ z) :=
  callApi_success (some "http://localhost:8080") (.obj [("accessToken", .str "abc")])
    "abc" rfl (by decide) rfl 200 "hello"

/-- Claim C6: when the outbound fetch throws a transport error, `/call-api`
responds once with status 500 and a body containing the raw error message,
and issues the fetch exactly once (no retry). -/
theorem callApi_failure (apiBase : Option String) (user : JSValue) (t : String)
    (ht : objProp user "accessToken" = .str t) (htt : t ≠ "")
    (hu : jsTruthy user = true) (message : String) :
    (callApiHandler apiBase user (.failure message)).requests.length = 1 ∧
    ∃ x y, (callApiHandler apiBase user (.failure message)).response =
      .send 500 (x ++ message ++ y) := by
  have hat : andProp user "accessToken" = .str t := by
    simp [andProp, hu, ht]
  constructor
  · simp [callApiHandler, hat, jsTruthy, htt]
  · refine ⟨"\n            <h2>Error Calling Protected API</h2>\n            <p>",
      "</p>\n            <p><a href=\x22/\x22>Home</a></p>\n        ", ?_⟩
    simp [callApiHandler, hat, jsTruthy, htt, callApiErrorBody]

/-- Witness for C6 at a concrete token and error message. -/
theorem callApi_failure_witness :
    (callApiHandler (some "http://localhost:8080") (.obj [("accessToken", .str "abc")])
        (.failure "fetch failed")).requests.length = 1 ∧
    ∃ x y, (callApiHandler (some "http://localhost:8080")
        (.obj [("accessToken", .str "abc")]) (.failure "fetch failed")).response =
      .send 500 (x ++ "fetch failed" ++ y) :=
  callApi_failure (some "http://localhost:8080") (.obj [("accessToken", .str "abc")])
    "abc" rfl (by decide) rfl "fetch failed"

/-- Claim C9: `/call-api` reached with a session Identity carrying no access
token responds 401 with the exact body and issues no outbound request,
whatever the downstream would have answered. -/
theorem callApi_no_token (apiBase : Option String) (user : JSValue)
    (hu : jsTruthy user = true)
    (h : jsTruthy (objProp user "accessToken") = false) (outcome : FetchOutcome) :
    callApiHandler apiBase user outcome =
      ⟨[], .send 401 "No access token. Please log in again."⟩ := by
  have hat : jsTruthy (andProp user "accessToken") = false := by
    simp [andProp, hu, h]
  simp [callApiHandler, hat]

/-- Witness for C9: an identity object whose access token field is absent. -/
theorem callApi_no_token_witness :
    callApiHandler (some "http://localhost:8080") (.obj [("profile", .obj [])])
        (.success 200 "hello") =
      ⟨[], .send 401 "No access token. Please log in again."⟩ :=
  callApi_no_token (some "http://localhost:8080") (.obj [("profile", .obj [])])
    rfl rfl (.success 200 "hello")

/-- Claim C10: once startup has bound a listener, `API_BASE_URL` is a
non-empty string and the `/call-api` target URL is exactly that base followed
by `/secure-data`; the `http://localhost:8080` fallback is unreachable. -/
theorem callApi_url_no_fallback (e : Env) (h : ∃ p, startup e = .listening p) :
    ∃ s, e.API_BASE_URL = some s ∧ s ≠ "" ∧
      callApiUrl e.API_BASE_URL = s ++ "/secure-data" := by
  obtain ⟨p, hp⟩ := h
  by_cases hc : (envFalsy e.AUTH0_DOMAIN || envFalsy e.AUTH0_CLIENT_ID ||
      envFalsy e.AUTH0_CLIENT_SECRET || envFalsy e.AUTH0_CALLBACK_URL ||
      envFalsy e.API_BASE_URL || envFalsy e.PORT) = true
  · simp [startup, hc] at hp
  · have hb : envFalsy e.API_BASE_URL = false := by
      cases hx : envFalsy e.API_BASE_URL
      · rfl
      · exact absurd (by simp [hx]) hc
    cases hbase : e.API_BASE_URL with
    | none => rw [hbase] at hb; simp [envFalsy] at hb
    | some s =>
      rw [hbase] at hb
      have hs : ¬ s = "" := by
        intro hse
        rw [hse] at hb
        simp [envFalsy] at hb
      refine ⟨s, rfl, hs, ?_⟩
      simp [callApiUrl, hs]

/-- Witness for C10 at a concrete fully-populated environment. -/
theorem callApi_url_no_fallback_witness :
    ∃ s, (Env.mk (some "d.auth0.com") (some "cid") (some "sec") (some "cb")
        (some "http://api.example.com") (some "3000")).API_BASE_URL = some s ∧
      s ≠ "" ∧
      callApiUrl (Env.mk (some "d.auth0.com") (some "cid") (some "sec") (some "cb")
        (some "http://api.example.com") (some "3000")).API_BASE_URL =
        s ++ "/secure-data" :=
  callApi_url_no_fallback
    (Env.mk (some "d.auth0.com") (some "cid") (some "sec") (some "cb")
      (some "http://api.example.com") (some "3000"))
    ⟨"3000", rfl⟩

/-- Claim C7 (code bug): `/logout` never redirects to the provider logout
endpoint. The logout completion callback reads `searchParams` off a plain
string, getting `undefined`, and then reading `append` off that throws a
`TypeError`; the response actually sent is the synchronous redirect to `/`
from line 135. Evaluated here at a concrete domain, client id and port. -/
theorem logout_searchParams_typeError :
    logoutHandler "example.auth0.com" "client123" "3000" =
      ⟨.error "TypeError: Cannot read properties of undefined (reading \x27append\x27)",
       .redirect "/"⟩ := by
  rfl

end NodeClient
